import Mathlib

/-!
Verification of the real-debrid-uptime core against its specification.

The development shallowly embeds the three core components:

* `Storage` — the append-only, self-pruning history store (`src/storage.ts`):
  timestamps are modelled as epoch milliseconds (`Int`, the value of
  `new Date(ts).getTime()`); the backing file is modelled as either missing
  or a list of per-line parse outcomes (`Option HistoryEntry`), reflecting
  that `loadEntries` maps `JSON.parse` over the lines and a thrown parse
  error on any line makes the whole load return `[]`.

* `StreamChecker` — the per-target health checker (`src/streamChecker.ts`):
  each remote call (`getCacheList`, `getCacheInfo`, `unrestrictLink`,
  `getDownloadsList`) and the CDN probe (`headWithTtfb`) is an input supplied
  by an environment record, with the same result shapes as `rdClient.ts`;
  the checker's control flow and result assembly are translated branch by
  branch.  Wall-clock elapsed-time measurements (`Date.now() - apiStart`)
  are environment-supplied numbers, one field per measurement site.
  URL parsing (`parseDownloadId`, which delegates to the runtime URL class)
  is modelled as the environment-provided parse outcome.

* `Scheduler` — the interval scheduler (`scheduler.ts`): modelled as a
  small-step transition system over the module state
  `{timeoutId, inFlight, stopping}` plus the observable effects
  (the log of appended history entries, `lastRun`, `lastError`, and whether
  the promise returned by `stop()` has resolved).  The events are the
  scheduler's internal transitions: a pending timer firing, the in-flight
  cycle finishing (successfully with an entry, or with a cycle-level
  exception message), a call to `stop()`, and one round of the 100ms
  polling loop inside `stop()`.

All functions are total, which captures the "never throws / never
propagates" clauses of the specification.
-/

namespace Storage

/-- `ApiRecord` from `src/storage.ts`. -/
structure ApiRecord where
  success : Bool
  responseTimeMs : Nat
  httpStatus : Nat
  error : Option String := none
deriving DecidableEq, Repr

/-- `StreamRecord` from `src/storage.ts`. -/
structure StreamRecord where
  success : Bool
  apiResponseTimeMs : Option Nat := none
  ttfbMs : Option Nat := none
  httpStatus : Option Nat := none
  cdnHost : Option String := none
  errorType : Option String := none
  failureStep : Option String := none
deriving DecidableEq, Repr

/-- `HistoryEntry` from `src/storage.ts`.  The ISO-8601 `timestamp` string is
modelled by its epoch-millisecond value (`new Date(ts).getTime()`), which is
the only way the store ever consumes it. -/
structure HistoryEntry where
  timestamp : Int
  api : Option ApiRecord := none
  streams : Option (List (String × StreamRecord)) := none
deriving DecidableEq, Repr

/-- `RETENTION_DAYS` from `src/storage.ts`. -/
def RETENTION_DAYS : Int := 7

/-- `MAX_AGE_MS` from `src/storage.ts`. -/
def MAX_AGE_MS : Int := RETENTION_DAYS * 24 * 60 * 60 * 1000

/-- State of the backing file: missing, or present with one parse outcome per
(non-blank) line — `none` for a line on which `JSON.parse` throws. -/
inductive FileState where
  | missing
  | stored (lines : List (Option HistoryEntry))
deriving DecidableEq

/-- The `lines.map((line) => JSON.parse(line))` step of `loadEntries`:
mapping over the lines throws (returns `none`) as soon as one line fails to
parse. -/
def parseAll : List (Option HistoryEntry) → Option (List HistoryEntry)
  | [] => some []
  | none :: _ => none
  | some e :: rest => (parseAll rest).map (fun es => e :: es)

/-- `loadEntries` from `src/storage.ts`: a missing file loads as `[]`; a
parse failure anywhere is caught and also yields `[]`. -/
def loadEntries : FileState → List HistoryEntry
  | .missing => []
  | .stored lines => (parseAll lines).getD []

/-- `prune` from `src/storage.ts`: keep the entries with
`timestamp > now - MAX_AGE_MS`. -/
def prune (now : Int) (entries : List HistoryEntry) : List HistoryEntry :=
  let cutoff := now - MAX_AGE_MS
  entries.filter (fun e => cutoff < e.timestamp)

/-- `append` from `src/storage.ts`: load the stored entries, push the new
entry, prune, and rewrite the whole file (every surviving entry serialized
back as one well-formed line). -/
def append (now : Int) (file : FileState) (entry : HistoryEntry) : FileState :=
  let entries := loadEntries file
  let pruned := prune now (entries ++ [entry])
  .stored (pruned.map some)

/-- `readAll` from `src/storage.ts`: load and prune on read, without
persisting the prune. -/
def readAll (now : Int) (file : FileState) : List HistoryEntry :=
  prune now (loadEntries file)


end Storage

namespace StreamChecker

/-- `StreamErrorType` from `src/streamChecker.ts`. -/
inductive StreamErrorType where
  | timeout
  | rate_limit
  | forbidden
  | server_error
  | network
  | unknown
deriving DecidableEq, Repr

/-- `StreamFailureStep` from `src/streamChecker.ts`. -/
inductive StreamFailureStep where
  | instant_unavailable
  | add_magnet_failed
  | select_files_failed
  | no_links
  | unrestrict_failed
  | cdn_head_failed
  | cache_not_in_account
  | download_not_found
deriving DecidableEq, Repr

/-- `StreamCheckResult` from `src/streamChecker.ts`; an absent optional field
is `none`. -/
structure StreamCheckResult where
  success : Bool
  apiResponseTimeMs : Option Nat := none
  ttfbMs : Option Nat := none
  httpStatus : Option Nat := none
  cdnHost : Option String := none
  errorType : Option StreamErrorType := none
  failureStep : Option StreamFailureStep := none
deriving DecidableEq, Repr

/-- `message?.toLowerCase().includes(sub)` for the lowercase literals used by
`classifyError`: a nonempty substring occurs in a string exactly when
splitting on it yields at least two parts. -/
def msgHas (message : Option String) (sub : String) : Bool :=
  match message with
  | some m => decide (2 ≤ (m.toLower.splitOn sub).length)
  | none => false

/-- `classifyError` from `src/streamChecker.ts`.  The classifier is one
function of the numeric status and optional message only; it takes no
argument identifying the resolution stage or probe that produced the
status. -/
def classifyError (status : Nat) (message : Option String) : StreamErrorType :=
  if status = 429 then .rate_limit
  else if status = 403 then .forbidden
  else if 500 ≤ status then .server_error
  else if status = 0 ∨ msgHas message "timeout" then .timeout
  else if msgHas message "fetch" ∨ msgHas message "network"
      ∨ msgHas message "econnrefused" then .network
  else .unknown

/-- The truthiness pattern
`x.httpStatus ? classifyError(x.httpStatus) : "unknown"` used at the
list-failure and unrestrict-failure sites: both an absent status and a
status of `0` are falsy in JavaScript and yield `"unknown"`. -/
def classifyTruthy (status : Option Nat) : StreamErrorType :=
  match status with
  | some s => if s = 0 then .unknown else classifyError s none
  | none => .unknown

/-- `CacheListItem` from `rdClient.ts`. -/
structure CacheListItem where
  id : String
  filename : String
  hash : String
  bytes : Nat
  status : String
  progress : Nat
  added : String
deriving DecidableEq, Repr

/-- Return shape of `getCacheList` from `rdClient.ts`. -/
structure CacheListResult where
  success : Bool
  items : Option (List CacheListItem) := none
  httpStatus : Option Nat := none
  error : Option String := none
deriving DecidableEq, Repr

/-- `CacheInfoResult` from `rdClient.ts` (the optional `files` field is not
read by the checker and is omitted). -/
structure CacheInfoResult where
  id : String
  hash : String
  status : String
  links : List String
deriving DecidableEq, Repr

/-- Return shape of `getCacheInfo` from `rdClient.ts`. -/
structure CacheInfoCall where
  success : Bool
  info : Option CacheInfoResult := none
  httpStatus : Option Nat := none
deriving DecidableEq, Repr

/-- Return shape of `unrestrictLink` from `rdClient.ts`. -/
structure UnrestrictCall where
  success : Bool
  download : Option String := none
  host : Option String := none
  httpStatus : Option Nat := none
deriving DecidableEq, Repr

/-- `DownloadListItem` from `rdClient.ts`. -/
structure DownloadListItem where
  id : String
  filename : String
  mimeType : String
  filesize : Nat
  link : String
  host : String
  download : String
  generated : String
deriving DecidableEq, Repr

/-- Return shape of `getDownloadsList` from `rdClient.ts`. -/
structure DownloadsListResult where
  success : Bool
  downloads : Option (List DownloadListItem) := none
  httpStatus : Option Nat := none
  error : Option String := none
deriving DecidableEq, Repr

/-- Resolved value of `headWithTtfb` from `src/streamChecker.ts`.  The
function never rejects: an unsupported HEAD method falls back to a ranged
GET and a network-level failure of both attempts is reported as status `0`
with the requested URL's host, so every probe yields a value of this
shape. -/
structure ProbeResult where
  ttfbMs : Nat
  httpStatus : Nat
  host : String
deriving DecidableEq, Repr

/-- Environment of `checkStreamByHash`: the results of the remote calls it
awaits, the probe result for the unrestricted URL, and the wall-clock
elapsed-time readings (`Date.now() - apiStart`) at each measurement site. -/
structure HashEnv where
  cacheList : CacheListResult
  cacheInfo : CacheInfoCall
  unrestrict : UnrestrictCall
  probe : ProbeResult
  msListFail : Nat := 0
  msNoMatch : Nat := 0
  msNoLinks : Nat := 0
  msUnrestrictFail : Nat := 0
  msApi : Nat := 0
deriving DecidableEq, Repr

/-- Environment of `checkStreamByUrl`: the outcome of `parseDownloadId` on
the configured URL (URL parsing delegates to the runtime URL class), the
downloads-list result, the probe result, and the elapsed-time readings. -/
structure UrlEnv where
  parsedId : Option String
  downloads : DownloadsListResult
  probe : ProbeResult
  msParseFail : Nat := 0
  msListFail : Nat := 0
  msNotFound : Nat := 0
  msApi : Nat := 0
deriving DecidableEq, Repr

/-- `checkStreamByHash` from `src/streamChecker.ts`, branch by branch.
`!list.success || !list.items` fails the check early (an empty items array is
truthy in JavaScript and proceeds to the find);
`!info.success || !info.info?.links?.length` covers a failed info call and an
empty link list; `!unrestrict.success || !unrestrict.download` covers a
failed unrestrict call and an absent or empty download URL. -/
def checkStreamByHash (env : HashEnv) (hash : String) : StreamCheckResult :=
  match env.cacheList.success, env.cacheList.items with
  | true, some items =>
    (match items.find? (fun t => t.hash.toLower == hash.toLower) with
     | none =>
       { success := false
         apiResponseTimeMs := some env.msNoMatch
         errorType := some .unknown
         failureStep := some .cache_not_in_account }
     | some _cache =>
       match env.cacheInfo.success, env.cacheInfo.info with
       | true, some info =>
         (match info.links with
          | [] =>
            { success := false
              apiResponseTimeMs := some env.msNoLinks
              errorType := some .unknown
              failureStep := some .no_links }
          | _link :: _ =>
            match env.unrestrict.success, env.unrestrict.download with
            | true, some dl =>
              if dl = "" then
                { success := false
                  apiResponseTimeMs := some env.msUnrestrictFail
                  httpStatus := some (env.unrestrict.httpStatus.getD 0)
                  errorType := some (classifyTruthy env.unrestrict.httpStatus)
                  failureStep := some .unrestrict_failed }
              else
                { success := decide (200 ≤ env.probe.httpStatus ∧
                    env.probe.httpStatus < 400)
                  apiResponseTimeMs := some env.msApi
                  ttfbMs := some env.probe.ttfbMs
                  httpStatus := some env.probe.httpStatus
                  cdnHost := if env.probe.host = "" then env.unrestrict.host
                    else some env.probe.host
                  errorType := if 400 ≤ env.probe.httpStatus then
                    some (classifyError env.probe.httpStatus none) else none
                  failureStep := if 400 ≤ env.probe.httpStatus then
                    some .cdn_head_failed else none }
            | _, _ =>
              { success := false
                apiResponseTimeMs := some env.msUnrestrictFail
                httpStatus := some (env.unrestrict.httpStatus.getD 0)
                errorType := some (classifyTruthy env.unrestrict.httpStatus)
                failureStep := some .unrestrict_failed })
       | _, _ =>
         { success := false
           apiResponseTimeMs := some env.msNoLinks
           errorType := some .unknown
           failureStep := some .no_links })
  | _, _ =>
    { success := false
      apiResponseTimeMs := some env.msListFail
      httpStatus := some (env.cacheList.httpStatus.getD 0)
      errorType := some (classifyTruthy env.cacheList.httpStatus)
      failureStep := some .cache_not_in_account }

/-- `checkStreamByUrl` from `src/streamChecker.ts`, branch by branch.  Both
an absent list entry and an entry whose `download` URL is empty (falsy) take
the `download_not_found` branch. -/
def checkStreamByUrl (env : UrlEnv) : StreamCheckResult :=
  match env.parsedId with
  | none =>
    { success := false
      apiResponseTimeMs := some env.msParseFail
      errorType := some .unknown
      failureStep := some .download_not_found }
  | some did =>
    match env.downloads.success, env.downloads.downloads with
    | true, some ds =>
      (match ds.find? (fun d => d.id == did) with
       | none =>
         { success := false
           apiResponseTimeMs := some env.msNotFound
           errorType := some .unknown
           failureStep := some .download_not_found }
       | some d =>
         if d.download = "" then
           { success := false
             apiResponseTimeMs := some env.msNotFound
             errorType := some .unknown
             failureStep := some .download_not_found }
         else
           { success := decide (200 ≤ env.probe.httpStatus ∧
               env.probe.httpStatus < 400)
             apiResponseTimeMs := some env.msApi
             ttfbMs := some env.probe.ttfbMs
             httpStatus := some env.probe.httpStatus
             cdnHost := some (if env.probe.host = "" then d.host
               else env.probe.host)
             errorType := if 400 ≤ env.probe.httpStatus then
               some (classifyError env.probe.httpStatus none) else none
             failureStep := if 400 ≤ env.probe.httpStatus then
               some .cdn_head_failed else none })
    | _, _ =>
      { success := false
        apiResponseTimeMs := some env.msListFail
        httpStatus := some (env.downloads.httpStatus.getD 0)
        errorType := some (classifyTruthy env.downloads.httpStatus)
        failureStep := some .download_not_found }

/-- Runtime value of a configured stream definition (`StreamDef` in
`config.ts` is the union of the two valid shapes, but the value comes from a
JSON file without runtime validation, so the `type` tag and the presence of
the `hash`/`url` payloads are modelled independently; `"hash" in stream` is
`stream.hash.isSome`). -/
structure StreamDef where
  id : String
  type : String
  hash : Option String := none
  url : Option String := none
deriving DecidableEq, Repr

/-- Environments for both protocols, so that `checkStream` can dispatch. -/
structure CheckEnv where
  hashEnv : HashEnv
  urlEnv : UrlEnv
deriving DecidableEq, Repr

/-- `checkStream` from `src/streamChecker.ts`.  The surrounding `try/catch`
is the identity here: the embedded checkers are total (they isolate every
remote failure into a result), so the catch branch is unreachable. -/
def checkStream (env : CheckEnv) (stream : StreamDef) : StreamCheckResult :=
  if stream.type = "download" ∧ stream.url.isSome then
    checkStreamByUrl env.urlEnv
  else if stream.type = "hash" ∧ stream.hash.isSome then
    checkStreamByHash env.hashEnv (stream.hash.getD "")
  else
    { success := false
      apiResponseTimeMs := some 0
      errorType := some .unknown
      failureStep := some .cache_not_in_account }

/-- A minimal concrete environment, used to evaluate the checker on closed
instances. -/
def sampleHashEnv : HashEnv :=
  { cacheList := { success := false },
    cacheInfo := { success := false },
    unrestrict := { success := false },
    probe := { ttfbMs := 0, httpStatus := 0, host := "" } }

/-- A minimal concrete URL-mode environment. -/
def sampleUrlEnv : UrlEnv :=
  { parsedId := none,
    downloads := { success := false },
    probe := { ttfbMs := 0, httpStatus := 0, host := "" } }

/-- The two sample environments packaged for `checkStream`. -/
def sampleEnv : CheckEnv :=
  { hashEnv := sampleHashEnv, urlEnv := sampleUrlEnv }

/-- A concrete cached item, used by `probeZeroHashEnv`. -/
def sampleCacheItem : CacheListItem :=
  { id := "t1", filename := "f", hash := "abc", bytes := 1,
    status := "downloaded", progress := 100, added := "2024-01-01" }

/-- Concrete cache-item info with one link, used by `probeZeroHashEnv`. -/
def sampleCacheInfo : CacheInfoResult :=
  { id := "t1", hash := "abc", status := "downloaded", links := ["link1"] }

/-- A concrete by-hash environment in which every resolution stage succeeds
and the CDN probe degrades to status `0` (the network-failure fallback of
`headWithTtfb`). -/
def probeZeroHashEnv : HashEnv :=
  { cacheList := { success := true, items := some [sampleCacheItem] },
    cacheInfo := { success := true, info := some sampleCacheInfo },
    unrestrict := { success := true, download := some "https://cdn/x",
                    host := some "cdn-host", httpStatus := some 200 },
    probe := { ttfbMs := 7, httpStatus := 0, host := "cdn" } }

/-- A concrete downloads-list entry, used by `resolvedUrlEnv`. -/
def sampleDownload : DownloadListItem :=
  { id := "EGG", filename := "f", mimeType := "video/mp4", filesize := 10,
    link := "l", host := "dhost", download := "https://cdn/d",
    generated := "g" }

/-- A concrete URL-mode environment in which resolution succeeds and the
probe returns HTTP 404. -/
def resolvedUrlEnv : UrlEnv :=
  { parsedId := some "EGG",
    downloads := { success := true, downloads := some [sampleDownload] },
    probe := { ttfbMs := 3, httpStatus := 404, host := "cdn2" } }

end StreamChecker

namespace Scheduler

/-- Outcome of one execution of `runCheck`'s `try` block in `scheduler.ts`:
either it reaches `append(entry)` and the state updates with the assembled
entry, or a cycle-level exception with the given message is caught. -/
inductive CycleResult where
  | success (entry : Storage.HistoryEntry)
  | failure (message : String)
deriving DecidableEq, Repr

/-- The scheduler module's state (`scheduler.ts`): the exported
`SchedulerState` fields `lastRun`/`lastError` (timestamps again as epoch
milliseconds), the module-level flags `timeoutId != null` (`timerPending`),
`inFlight` and `stopping`, plus two observables: `appendLog`, the sequence of
entries passed to the store's `append` in call order, and `stopResolved`,
whether the promise returned by `stop()` has resolved. -/
structure SchedState where
  lastRun : Option Int := none
  lastError : Option String := none
  timerPending : Bool := false
  inFlight : Bool := false
  stopping : Bool := false
  appendLog : List Storage.HistoryEntry := []
  stopResolved : Bool := false
deriving DecidableEq, Repr

/-- The scheduler's internal transitions: the pending timer fires
(`setTimeout` callback in `scheduleNext`), the in-flight `runCheck` finishes
(its `try`/`catch` outcome followed by the `finally` block), `stop()` is
called (sets `stopping`, clears the timer), and one round of the 100ms
polling loop inside `stop()` (resolves when no cycle is in flight). -/
inductive SchedEv where
  | timerFire
  | finishCycle (r : CycleResult)
  | stopCall
  | poll
deriving DecidableEq, Repr

/-- One step of the scheduler, event by event, translated from
`scheduler.ts`:

* `timerFire`: the callback clears `timeoutId` and starts a cycle only if
  none is in flight (the re-entrancy guard).
* `finishCycle r`: on success, `append(entry)` runs, `lastRun` becomes the
  entry's timestamp and `lastError` clears; on a cycle-level exception only
  `lastError` is set.  In both cases the `finally` block clears `inFlight`
  and schedules the next cycle unless `stopping` (`scheduleNext` keeps an
  already-pending timer).
* `stopCall`: sets `stopping` and cancels a pending timer.
* `poll`: the `check()` closure inside `stop()` resolves the returned
  promise when no cycle is in flight, and otherwise re-arms itself. -/
def schedStep (s : SchedState) (e : SchedEv) : SchedState :=
  match e with
  | .timerFire =>
    if s.timerPending then
      if s.inFlight then { s with timerPending := false }
      else { s with timerPending := false, inFlight := true }
    else s
  | .finishCycle r =>
    if s.inFlight then
      let s1 :=
        match r with
        | .success entry =>
          { s with appendLog := s.appendLog ++ [entry],
                   lastRun := some entry.timestamp,
                   lastError := none }
        | .failure msg => { s with lastError := some msg }
      { s1 with inFlight := false,
                timerPending := if s1.stopping then s1.timerPending else true }
    else s
  | .stopCall => { s with stopping := true, timerPending := false }
  | .poll =>
    if s.stopping = true ∧ s.inFlight = false then
      { s with stopResolved := true }
    else s

/-- Run a sequence of scheduler events. -/
def schedRun (s : SchedState) : List SchedEv → SchedState
  | [] => s
  | e :: t => schedRun (schedStep s e) t

end Scheduler


namespace Storage

theorem parseAll_map_some (xs : List HistoryEntry) :
    parseAll (xs.map some) = some xs := by
  induction xs with
  | nil => rfl
  | cons x xs ih => simp [parseAll, ih]

theorem loadEntries_append (now : Int) (file : FileState)
    (entry : HistoryEntry) :
    loadEntries (append now file entry) =
      prune now (loadEntries file ++ [entry]) := by
  simp [append, loadEntries, parseAll_map_some]

theorem parseAll_of_none_mem {lines : List (Option HistoryEntry)}
    (h : none ∈ lines) : parseAll lines = none := by
  induction lines with
  | nil => cases h
  | cons l rest ih =>
    cases l with
    | none => rfl
    | some e =>
      rcases List.mem_cons.mp h with h1 | h2
      · cases h1
      · simp [parseAll, ih h2]

theorem prune_append_singleton (now : Int) (l : List HistoryEntry)
    (e : HistoryEntry) (h : now - MAX_AGE_MS < e.timestamp) :
    prune now (l ++ [e]) = prune now l ++ [e] := by
  simp [prune, List.filter_append, h]

/-- C1 (counterexample): the claim as stated fails when the appended record is
itself older than the retention window.  Appending a record with timestamp `0`
at `now = MAX_AGE_MS + 1` yields an empty store: the new record is pruned
together with the stale ones instead of appearing as the last element. -/
theorem append_stale_entry_counterexample :
    loadEntries (append (MAX_AGE_MS + 1) .missing { timestamp := 0 }) = [] ∧
    loadEntries (append (MAX_AGE_MS + 1) .missing { timestamp := 0 }) ≠
      (loadEntries FileState.missing).filter
        (fun e => MAX_AGE_MS + 1 - MAX_AGE_MS < e.timestamp) ++
        [{ timestamp := 0 }] := by
  constructor
  · decide
  · decide

/-- C1 (amended): immediately after `append` completes, and provided the
appended record is itself within the retention window (its age at write time
is strictly below 7 days — the pruning filter is strict, so a record at age
exactly 7 days is dropped), the persisted store is exactly the previously
stored records whose age at write time is strictly below 7 days, in their
original insertion order, followed by the new record; every stored record then
has age strictly below 7 days, so records older than 7 days are absent. -/
theorem append_retention (now : Int) (file : FileState) (entry : HistoryEntry)
    (h : now - MAX_AGE_MS < entry.timestamp) :
    loadEntries (append now file entry) =
      (loadEntries file).filter (fun e => now - MAX_AGE_MS < e.timestamp)
        ++ [entry] ∧
    ∀ e ∈ loadEntries (append now file entry),
      now - e.timestamp < MAX_AGE_MS := by
  constructor
  · rw [loadEntries_append, prune_append_singleton now _ entry h]
    rfl
  · intro e he
    rw [loadEntries_append] at he
    simp only [prune, List.mem_filter, decide_eq_true_eq] at he
    omega

/-- C1 (witness): `append_retention` evaluated at a concrete fresh record. -/
theorem append_retention_witness :
    loadEntries (append 0 .missing { timestamp := 0 }) =
      (loadEntries FileState.missing).filter
        (fun e => (0 : Int) - MAX_AGE_MS < e.timestamp) ++
        [{ timestamp := 0 }] :=
  (append_retention 0 .missing { timestamp := 0 } (by decide)).1

/-- C8: appending a record that is still within the retention window at read
time and then calling `readAll` yields a non-empty sequence whose last element
is the just-appended record (the read-time clock `tr` is at or after the
write-time clock `tw`). -/
theorem append_then_readAll_last (tw tr : Int) (file : FileState)
    (entry : HistoryEntry) (h1 : tw ≤ tr)
    (h2 : tr - MAX_AGE_MS < entry.timestamp) :
    readAll tr (append tw file entry) ≠ [] ∧
    (readAll tr (append tw file entry)).getLast? = some entry := by
  have hw : tw - MAX_AGE_MS < entry.timestamp := by omega
  have key : readAll tr (append tw file entry)
      = prune tr (prune tw (loadEntries file)) ++ [entry] := by
    calc readAll tr (append tw file entry)
        = prune tr (loadEntries (append tw file entry)) := rfl
      _ = prune tr (prune tw (loadEntries file ++ [entry])) := by
            rw [loadEntries_append]
      _ = prune tr (prune tw (loadEntries file) ++ [entry]) := by
            rw [prune_append_singleton _ _ _ hw]
      _ = prune tr (prune tw (loadEntries file)) ++ [entry] :=
            prune_append_singleton _ _ _ h2
  rw [key]
  constructor
  · simp
  · simp

/-- C8 (witness): `append_then_readAll_last` at a concrete record. -/
theorem append_then_readAll_last_witness :
    readAll 0 (append 0 .missing { timestamp := 0 }) ≠ [] ∧
    (readAll 0 (append 0 .missing { timestamp := 0 })).getLast? =
      some { timestamp := 0 } :=
  append_then_readAll_last 0 0 .missing { timestamp := 0 }
    (by decide) (by decide)

/-- C9: a missing backing file, or one with a line that fails to parse, loads
as the empty record list (the functions are total, so loading never raises);
consequently `readAll` returns `[]` on such a file and `append` behaves on it
exactly as on a missing file. -/
theorem corrupt_or_missing_as_empty (now : Int)
    (lines : List (Option HistoryEntry)) (entry : HistoryEntry)
    (h : none ∈ lines) :
    loadEntries .missing = [] ∧
    loadEntries (.stored lines) = [] ∧
    readAll now .missing = [] ∧
    readAll now (.stored lines) = [] ∧
    append now (.stored lines) entry = append now .missing entry := by
  have hl : loadEntries (.stored lines) = [] := by
    simp [loadEntries, parseAll_of_none_mem h]
  refine ⟨rfl, hl, rfl, ?_, ?_⟩
  · simp [readAll, hl, prune]
  · simp only [append, hl]
    rfl

/-- C9 (witness): `corrupt_or_missing_as_empty` at a concrete corrupt file. -/
theorem corrupt_or_missing_as_empty_witness :
    loadEntries (.stored [none]) = [] :=
  (corrupt_or_missing_as_empty 0 [none] { timestamp := 0 }
    (by decide)).2.1
end Storage

namespace StreamChecker

/-- C4: the error classifier maps 429 to rate limit, 403 to forbidden, any
status ≥ 500 to server error, then (in exactly this precedence) status 0 or a
message mentioning "timeout" to timeout, a message mentioning a
network/connection term ("fetch", "network", "econnrefused") to network, and
everything else to unknown.  `classifyError` is one function of the numeric
status and optional message alone — it has no argument identifying the
resolution stage or probe — so a 429 yields the rate-limit kind regardless of
which stage produced it. -/
theorem classifyError_cases (status : Nat) (message : Option String) :
    (status = 429 → classifyError status message = .rate_limit) ∧
    (status = 403 → classifyError status message = .forbidden) ∧
    (500 ≤ status → classifyError status message = .server_error) ∧
    (status ≠ 429 → status ≠ 403 → status < 500 →
      status = 0 ∨ msgHas message "timeout" = true →
      classifyError status message = .timeout) ∧
    (status ≠ 429 → status ≠ 403 → status < 500 → status ≠ 0 →
      msgHas message "timeout" = false →
      msgHas message "fetch" = true ∨ msgHas message "network" = true ∨
        msgHas message "econnrefused" = true →
      classifyError status message = .network) ∧
    (status ≠ 429 → status ≠ 403 → status < 500 → status ≠ 0 →
      msgHas message "timeout" = false → msgHas message "fetch" = false →
      msgHas message "network" = false →
      msgHas message "econnrefused" = false →
      classifyError status message = .unknown) := by
  refine ⟨fun h => ?_, fun h => ?_, fun h => ?_, fun h1 h2 h3 h4 => ?_,
    fun h1 h2 h3 h4 h5 h6 => ?_, fun h1 h2 h3 h4 h5 h6 h7 h8 => ?_⟩
  · simp [classifyError, h]
  · simp [classifyError, h]
  · have n1 : status ≠ 429 := by omega
    have n2 : status ≠ 403 := by omega
    simp [classifyError, n1, n2, h]
  · have n3 : ¬ 500 ≤ status := by omega
    unfold classifyError
    rw [if_neg h1, if_neg h2, if_neg n3, if_pos h4]
  · have n3 : ¬ 500 ≤ status := by omega
    have hno : ¬(status = 0 ∨ msgHas message "timeout" = true) := by
      rintro (hc | hc)
      · exact h4 hc
      · rw [h5] at hc
        simp at hc
    unfold classifyError
    rw [if_neg h1, if_neg h2, if_neg n3, if_neg hno, if_pos h6]
  · have n3 : ¬ 500 ≤ status := by omega
    have hno : ¬(status = 0 ∨ msgHas message "timeout" = true) := by
      rintro (hc | hc)
      · exact h4 hc
      · rw [h5] at hc
        simp at hc
    have hnet : ¬(msgHas message "fetch" = true ∨
        msgHas message "network" = true ∨
        msgHas message "econnrefused" = true) := by
      simp [h6, h7, h8]
    unfold classifyError
    rw [if_neg h1, if_neg h2, if_neg n3, if_neg hno, if_neg hnet]

/-- C4 (witness): `classifyError_cases` evaluated at status 429. -/
theorem classifyError_cases_witness :
    classifyError 429 none = .rate_limit :=
  (classifyError_cases 429 none).1 rfl

/-- C6: in by-hash mode, a failed cache-list call (or one returning no items
array) and a hash with no case-insensitive match in the returned list both
produce `success = false` with `failureStep = cache_not_in_account`; in both
cases the outcome is built from the list result alone, so the info,
unrestrict and probe stages do not occur in it. -/
theorem byhash_absent_is_cache_not_in_account (env : HashEnv) (hash : String) :
    (env.cacheList.success = false ∨ env.cacheList.items = none →
      checkStreamByHash env hash =
        { success := false,
          apiResponseTimeMs := some env.msListFail,
          httpStatus := some (env.cacheList.httpStatus.getD 0),
          errorType := some (classifyTruthy env.cacheList.httpStatus),
          failureStep := some .cache_not_in_account }) ∧
    (∀ items, env.cacheList.success = true →
      env.cacheList.items = some items →
      items.find? (fun t => t.hash.toLower == hash.toLower) = none →
      checkStreamByHash env hash =
        { success := false,
          apiResponseTimeMs := some env.msNoMatch,
          errorType := some .unknown,
          failureStep := some .cache_not_in_account }) := by
  constructor
  · rintro (hs | hi)
    · cases hio : env.cacheList.items <;>
        simp [checkStreamByHash, hs, hio]
    · cases hcs : env.cacheList.success <;>
        simp [checkStreamByHash, hcs, hi]
  · intro items hs hi hf
    simp [checkStreamByHash, hs, hi, hf]

/-- C6 (witness): `byhash_absent_is_cache_not_in_account` on a failed list
call. -/
theorem byhash_absent_witness :
    checkStreamByHash sampleHashEnv "abc" =
      { success := false, apiResponseTimeMs := some 0, httpStatus := some 0,
        errorType := some .unknown,
        failureStep := some .cache_not_in_account } :=
  (byhash_absent_is_cache_not_in_account sampleHashEnv "abc").1 (Or.inl rfl)

/-- C10: a stream definition matching neither valid shape (tag `"hash"` with
a hash payload, or tag `"download"` with a url payload) makes `checkStream`
return, totally (no exception) and independently of the remote environment,
exactly `{success := false, apiResponseTimeMs := some 0, errorType := unknown,
failureStep := cache_not_in_account}`. -/
theorem invalid_stream_shape_outcome (env : CheckEnv) (stream : StreamDef)
    (h1 : ¬(stream.type = "download" ∧ stream.url.isSome = true))
    (h2 : ¬(stream.type = "hash" ∧ stream.hash.isSome = true)) :
    checkStream env stream =
      { success := false, apiResponseTimeMs := some 0,
        errorType := some .unknown,
        failureStep := some .cache_not_in_account } := by
  unfold checkStream
  rw [if_neg h1, if_neg h2]

/-- C10 (witness): `invalid_stream_shape_outcome` on a definition with an
unknown tag and no payload. -/
theorem invalid_stream_shape_outcome_witness :
    checkStream sampleEnv { id := "s", type := "mystery" } =
      { success := false, apiResponseTimeMs := some 0,
        errorType := some .unknown,
        failureStep := some .cache_not_in_account } :=
  invalid_stream_shape_outcome sampleEnv { id := "s", type := "mystery" }
    (by simp) (by simp)

end StreamChecker

namespace StreamChecker

/-- C5: whenever a check — by hash or by URL — reaches the CDN probe stage,
the outcome's `success` is true exactly when the probe's final HTTP status
lies in [200, 400); every status ≥ 400 yields a failure at step
`cdn_head_failed` carrying the error kind from the uniform classifier and
the resolved CDN host (the probe's final hostname, falling back to the
unrestrict result's host, respectively the download entry's host, when the
probe URL yields no hostname). -/
theorem probe_stage_success_iff
    (henv : HashEnv) (hash : String) (uenv : UrlEnv)
    (items : List CacheListItem) (c : CacheListItem) (ci : CacheInfoResult)
    (lnk : String) (lnks : List String) (dl : String)
    (ds : List DownloadListItem) (d : DownloadListItem) (did : String)
    (h1 : henv.cacheList.success = true)
    (h2 : henv.cacheList.items = some items)
    (h3 : items.find? (fun t => t.hash.toLower == hash.toLower) = some c)
    (h4 : henv.cacheInfo.success = true)
    (h5 : henv.cacheInfo.info = some ci)
    (h6 : ci.links = lnk :: lnks)
    (h7 : henv.unrestrict.success = true)
    (h8 : henv.unrestrict.download = some dl)
    (h9 : ¬dl = "")
    (u1 : uenv.parsedId = some did)
    (u2 : uenv.downloads.success = true)
    (u3 : uenv.downloads.downloads = some ds)
    (u4 : ds.find? (fun d0 => d0.id == did) = some d)
    (u5 : ¬d.download = "") :
    ((checkStreamByHash henv hash).success = true ↔
      200 ≤ henv.probe.httpStatus ∧ henv.probe.httpStatus < 400) ∧
    (400 ≤ henv.probe.httpStatus →
      (checkStreamByHash henv hash).success = false ∧
      (checkStreamByHash henv hash).failureStep = some .cdn_head_failed ∧
      (checkStreamByHash henv hash).errorType =
        some (classifyError henv.probe.httpStatus none) ∧
      (checkStreamByHash henv hash).cdnHost =
        (if henv.probe.host = "" then henv.unrestrict.host
          else some henv.probe.host)) ∧
    ((checkStreamByUrl uenv).success = true ↔
      200 ≤ uenv.probe.httpStatus ∧ uenv.probe.httpStatus < 400) ∧
    (400 ≤ uenv.probe.httpStatus →
      (checkStreamByUrl uenv).success = false ∧
      (checkStreamByUrl uenv).failureStep = some .cdn_head_failed ∧
      (checkStreamByUrl uenv).errorType =
        some (classifyError uenv.probe.httpStatus none) ∧
      (checkStreamByUrl uenv).cdnHost =
        some (if uenv.probe.host = "" then d.host
          else uenv.probe.host)) := by
  have eH : checkStreamByHash henv hash =
      { success := decide (200 ≤ henv.probe.httpStatus ∧
          henv.probe.httpStatus < 400),
        apiResponseTimeMs := some henv.msApi,
        ttfbMs := some henv.probe.ttfbMs,
        httpStatus := some henv.probe.httpStatus,
        cdnHost := if henv.probe.host = "" then henv.unrestrict.host
          else some henv.probe.host,
        errorType := if 400 ≤ henv.probe.httpStatus then
          some (classifyError henv.probe.httpStatus none) else none,
        failureStep := if 400 ≤ henv.probe.httpStatus then
          some .cdn_head_failed else none } := by
    simp [checkStreamByHash, h1, h2, h3, h4, h5, h6, h7, h8, h9]
  have eU : checkStreamByUrl uenv =
      { success := decide (200 ≤ uenv.probe.httpStatus ∧
          uenv.probe.httpStatus < 400),
        apiResponseTimeMs := some uenv.msApi,
        ttfbMs := some uenv.probe.ttfbMs,
        httpStatus := some uenv.probe.httpStatus,
        cdnHost := some (if uenv.probe.host = "" then d.host
          else uenv.probe.host),
        errorType := if 400 ≤ uenv.probe.httpStatus then
          some (classifyError uenv.probe.httpStatus none) else none,
        failureStep := if 400 ≤ uenv.probe.httpStatus then
          some .cdn_head_failed else none } := by
    simp [checkStreamByUrl, u1, u2, u3, u4, u5]
  refine ⟨?_, fun hge => ⟨?_, ?_, ?_, ?_⟩, ?_, fun hge => ⟨?_, ?_, ?_, ?_⟩⟩
  · rw [eH]; simp
  · rw [eH]; simp; omega
  · rw [eH]; simp [hge]
  · rw [eH]; simp [hge]
  · rw [eH]
  · rw [eU]; simp
  · rw [eU]; simp; omega
  · rw [eU]; simp [hge]
  · rw [eU]; simp [hge]
  · rw [eU]

/-- C5 (witness): `probe_stage_success_iff` at concrete resolved
environments. -/
theorem probe_stage_success_iff_witness :
    (checkStreamByHash probeZeroHashEnv "abc").success = true ↔
      200 ≤ probeZeroHashEnv.probe.httpStatus ∧
      probeZeroHashEnv.probe.httpStatus < 400 :=
  (probe_stage_success_iff probeZeroHashEnv "abc" resolvedUrlEnv
    [sampleCacheItem] sampleCacheItem sampleCacheInfo "link1" []
    "https://cdn/x" [sampleDownload] sampleDownload "EGG"
    rfl rfl (by simp [sampleCacheItem]) rfl rfl rfl rfl rfl (by decide)
    rfl rfl rfl (by simp [sampleDownload]) (by decide)).1

end StreamChecker

namespace StreamChecker

theorem byHash_shape (env : HashEnv) (hash : String) :
    ((checkStreamByHash env hash).success = false ∧
     (checkStreamByHash env hash).errorType.isSome = true ∧
     (checkStreamByHash env hash).failureStep.isSome = true ∧
     (checkStreamByHash env hash).failureStep ≠ some .cdn_head_failed) ∨
    checkStreamByHash env hash =
      { success := decide (200 ≤ env.probe.httpStatus ∧
          env.probe.httpStatus < 400),
        apiResponseTimeMs := some env.msApi,
        ttfbMs := some env.probe.ttfbMs,
        httpStatus := some env.probe.httpStatus,
        cdnHost := if env.probe.host = "" then env.unrestrict.host
          else some env.probe.host,
        errorType := if 400 ≤ env.probe.httpStatus then
          some (classifyError env.probe.httpStatus none) else none,
        failureStep := if 400 ≤ env.probe.httpStatus then
          some .cdn_head_failed else none } := by
  unfold checkStreamByHash
  repeat' split
  all_goals first
    | exact Or.inr rfl
    | exact Or.inl ⟨rfl, rfl, rfl, by simp⟩

theorem byUrl_shape (env : UrlEnv) :
    ((checkStreamByUrl env).success = false ∧
     (checkStreamByUrl env).errorType.isSome = true ∧
     (checkStreamByUrl env).failureStep.isSome = true ∧
     (checkStreamByUrl env).failureStep ≠ some .cdn_head_failed) ∨
    ((checkStreamByUrl env).success = decide (200 ≤ env.probe.httpStatus ∧
        env.probe.httpStatus < 400) ∧
     (checkStreamByUrl env).apiResponseTimeMs = some env.msApi ∧
     (checkStreamByUrl env).ttfbMs = some env.probe.ttfbMs ∧
     (checkStreamByUrl env).httpStatus = some env.probe.httpStatus ∧
     (checkStreamByUrl env).errorType =
       (if 400 ≤ env.probe.httpStatus then
         some (classifyError env.probe.httpStatus none) else none) ∧
     (checkStreamByUrl env).failureStep =
       (if 400 ≤ env.probe.httpStatus then
         some .cdn_head_failed else none)) := by
  unfold checkStreamByUrl
  repeat' split
  all_goals first
    | exact Or.inr ⟨rfl, rfl, rfl, rfl, rfl, rfl⟩
    | exact Or.inl ⟨rfl, rfl, rfl, by simp⟩

theorem byHash_field_discipline (env : HashEnv) (hash : String) :
    ((checkStreamByHash env hash).success = true →
      (checkStreamByHash env hash).errorType = none ∧
      (checkStreamByHash env hash).failureStep = none ∧
      (checkStreamByHash env hash).apiResponseTimeMs.isSome = true ∧
      (checkStreamByHash env hash).ttfbMs.isSome = true ∧
      (checkStreamByHash env hash).httpStatus.isSome = true) ∧
    ((checkStreamByHash env hash).success = false →
      ((checkStreamByHash env hash).errorType.isSome = true ∧
       (checkStreamByHash env hash).failureStep.isSome = true) ∨
      ((checkStreamByHash env hash).errorType = none ∧
       (checkStreamByHash env hash).failureStep = none ∧
       (checkStreamByHash env hash).apiResponseTimeMs.isSome = true ∧
       (checkStreamByHash env hash).ttfbMs.isSome = true ∧
       ∃ h, (checkStreamByHash env hash).httpStatus = some h ∧ h < 200)) ∧
    ((checkStreamByHash env hash).failureStep = some .cdn_head_failed →
      ∃ h, (checkStreamByHash env hash).httpStatus = some h ∧ 400 ≤ h ∧
        (checkStreamByHash env hash).errorType =
          some (classifyError h none) ∧
        (checkStreamByHash env hash).apiResponseTimeMs.isSome = true ∧
        (checkStreamByHash env hash).ttfbMs.isSome = true) := by
  rcases byHash_shape env hash with ⟨hs, he, hf, hne⟩ | heq
  · exact ⟨fun ht => absurd ht (by simp [hs]), fun _ => Or.inl ⟨he, hf⟩,
      fun hc => absurd hc hne⟩
  · rw [heq]
    by_cases h4 : 400 ≤ env.probe.httpStatus
    · refine ⟨fun ht => ?_, fun _ => ?_, fun _ => ?_⟩
      · exfalso
        simp at ht
        omega
      · left
        simp [h4]
      · exact ⟨env.probe.httpStatus, rfl, h4, by simp [h4], rfl, rfl⟩
    · refine ⟨fun _ => ?_, fun hfalse => ?_, fun hc => ?_⟩
      · simp [h4]
      · right
        have h5 : env.probe.httpStatus < 200 := by
          simp at hfalse
          omega
        exact ⟨by simp [h4], by simp [h4], rfl, rfl,
          env.probe.httpStatus, rfl, h5⟩
      · simp [h4] at hc

theorem byUrl_field_discipline (env : UrlEnv) :
    ((checkStreamByUrl env).success = true →
      (checkStreamByUrl env).errorType = none ∧
      (checkStreamByUrl env).failureStep = none ∧
      (checkStreamByUrl env).apiResponseTimeMs.isSome = true ∧
      (checkStreamByUrl env).ttfbMs.isSome = true ∧
      (checkStreamByUrl env).httpStatus.isSome = true) ∧
    ((checkStreamByUrl env).success = false →
      ((checkStreamByUrl env).errorType.isSome = true ∧
       (checkStreamByUrl env).failureStep.isSome = true) ∨
      ((checkStreamByUrl env).errorType = none ∧
       (checkStreamByUrl env).failureStep = none ∧
       (checkStreamByUrl env).apiResponseTimeMs.isSome = true ∧
       (checkStreamByUrl env).ttfbMs.isSome = true ∧
       ∃ h, (checkStreamByUrl env).httpStatus = some h ∧ h < 200)) ∧
    ((checkStreamByUrl env).failureStep = some .cdn_head_failed →
      ∃ h, (checkStreamByUrl env).httpStatus = some h ∧ 400 ≤ h ∧
        (checkStreamByUrl env).errorType = some (classifyError h none) ∧
        (checkStreamByUrl env).apiResponseTimeMs.isSome = true ∧
        (checkStreamByUrl env).ttfbMs.isSome = true) := by
  rcases byUrl_shape env with ⟨hs, he, hf, hne⟩ |
    ⟨hsu, hapi, httf, hhtt, herr, hfs⟩
  · exact ⟨fun ht => absurd ht (by simp [hs]), fun _ => Or.inl ⟨he, hf⟩,
      fun hc => absurd hc hne⟩
  · by_cases h4 : 400 ≤ env.probe.httpStatus
    · refine ⟨fun ht => ?_, fun _ => ?_, fun _ => ?_⟩
      · exfalso
        rw [hsu] at ht
        simp at ht
        omega
      · left
        exact ⟨by rw [herr]; simp [h4], by rw [hfs]; simp [h4]⟩
      · exact ⟨env.probe.httpStatus, hhtt, h4, by rw [herr]; simp [h4],
          by rw [hapi]; rfl, by rw [httf]; rfl⟩
    · refine ⟨fun _ => ?_, fun hfalse => ?_, fun hc => ?_⟩
      · exact ⟨by rw [herr]; simp [h4], by rw [hfs]; simp [h4],
          by rw [hapi]; rfl, by rw [httf]; rfl, by rw [hhtt]; rfl⟩
      · right
        have h5 : env.probe.httpStatus < 200 := by
          rw [hsu] at hfalse
          simp at hfalse
          omega
        exact ⟨by rw [herr]; simp [h4], by rw [hfs]; simp [h4],
          by rw [hapi]; rfl, by rw [httf]; rfl,
          env.probe.httpStatus, hhtt, h5⟩
      · rw [hfs] at hc
        simp [h4] at hc

/-- C7 (counterexample): with every resolution stage succeeding and the CDN
probe degrading to status 0 (the network-failure fallback of `headWithTtfb`),
the recorded outcome has `success = false` yet carries neither an `errorType`
nor a `failureStep` — while it does carry the timing fields — refuting both
halves of the claim (a probe failure with status ≥ 400 likewise carries the
failure fields together with the full timing fields). -/
theorem failure_without_error_fields_counterexample :
    checkStreamByHash probeZeroHashEnv "abc" =
      { success := false, apiResponseTimeMs := some 0, ttfbMs := some 7,
        httpStatus := some 0, cdnHost := some "cdn",
        errorType := none, failureStep := none } := by
  simp [checkStreamByHash, probeZeroHashEnv, sampleCacheItem, sampleCacheInfo]

/-- C7 (amended): success outcomes carry the timing fields
(`apiResponseTimeMs`, `ttfbMs`, `httpStatus`) and never `errorType` or
`failureStep`; failure outcomes carry both `errorType` and `failureStep`,
except probe-stage outcomes whose final HTTP status is below 200 (for
example status 0 from the network-failure fallback): any failure without
the failure fields carries the timing fields and a recorded HTTP status
below 200.  Conversely, every probe-stage failure (step `cdn_head_failed`)
has a recorded status ≥ 400 and carries both failure fields — the error kind
from the uniform classifier — together with the full timing fields, so the
failure fields do co-occur with the success timing fields there. -/
theorem outcome_field_discipline (env : CheckEnv) (stream : StreamDef) :
    ((checkStream env stream).success = true →
      (checkStream env stream).errorType = none ∧
      (checkStream env stream).failureStep = none ∧
      (checkStream env stream).apiResponseTimeMs.isSome = true ∧
      (checkStream env stream).ttfbMs.isSome = true ∧
      (checkStream env stream).httpStatus.isSome = true) ∧
    ((checkStream env stream).success = false →
      ((checkStream env stream).errorType.isSome = true ∧
       (checkStream env stream).failureStep.isSome = true) ∨
      ((checkStream env stream).errorType = none ∧
       (checkStream env stream).failureStep = none ∧
       (checkStream env stream).apiResponseTimeMs.isSome = true ∧
       (checkStream env stream).ttfbMs.isSome = true ∧
       ∃ h, (checkStream env stream).httpStatus = some h ∧ h < 200)) ∧
    ((checkStream env stream).failureStep = some .cdn_head_failed →
      ∃ h, (checkStream env stream).httpStatus = some h ∧ 400 ≤ h ∧
        (checkStream env stream).errorType = some (classifyError h none) ∧
        (checkStream env stream).apiResponseTimeMs.isSome = true ∧
        (checkStream env stream).ttfbMs.isSome = true) := by
  unfold checkStream
  split
  · exact byUrl_field_discipline env.urlEnv
  · split
    · exact byHash_field_discipline env.hashEnv (stream.hash.getD "")
    · exact ⟨fun ht => by simp at ht, fun _ => Or.inl ⟨rfl, rfl⟩,
        fun hc => by simp at hc⟩

/-- C7 (witness): `outcome_field_discipline` evaluated on an ill-shaped
stream definition, whose failure outcome carries both failure fields. -/
theorem outcome_field_discipline_witness :
    ((checkStream sampleEnv { id := "s", type := "x" }).errorType.isSome =
        true ∧
     (checkStream sampleEnv { id := "s", type := "x" }).failureStep.isSome =
        true) ∨
    ((checkStream sampleEnv { id := "s", type := "x" }).errorType = none ∧
     (checkStream sampleEnv { id := "s", type := "x" }).failureStep = none ∧
     (checkStream sampleEnv
        { id := "s", type := "x" }).apiResponseTimeMs.isSome = true ∧
     (checkStream sampleEnv { id := "s", type := "x" }).ttfbMs.isSome =
        true ∧
     ∃ h, (checkStream sampleEnv { id := "s", type := "x" }).httpStatus =
        some h ∧ h < 200) :=
  (outcome_field_discipline sampleEnv { id := "s", type := "x" }).2.1 rfl

end StreamChecker

namespace Scheduler

theorem step_preserves_stopInv (s : SchedState) (e : SchedEv)
    (h1 : s.stopping = true) (h2 : s.timerPending = false) :
    (schedStep s e).stopping = true ∧ (schedStep s e).timerPending = false := by
  cases e with
  | timerFire => simp [schedStep, h1, h2]
  | finishCycle r =>
    cases r with
    | success entry =>
      by_cases hf : s.inFlight = true
      · simp [schedStep, hf, h1, h2]
      · simp [schedStep, hf, h1, h2]
    | failure m =>
      by_cases hf : s.inFlight = true
      · simp [schedStep, hf, h1, h2]
      · simp [schedStep, hf, h1, h2]
  | stopCall => simp [schedStep]
  | poll =>
    by_cases hin : s.inFlight = false
    · simp [schedStep, h1, h2, hin]
    · simp [schedStep, h1, h2, hin]

theorem step_resolved_inv (s : SchedState) (e : SchedEv)
    (h3 : s.stopResolved = true → s.inFlight = false)
    (h2 : s.timerPending = false) :
    (schedStep s e).stopResolved = true → (schedStep s e).inFlight = false := by
  cases e with
  | timerFire => simpa [schedStep, h2] using h3
  | finishCycle r =>
    by_cases hf : s.inFlight = true
    · cases r <;> simp [schedStep, hf]
    · cases r <;> simp [schedStep, hf]
  | stopCall => simpa [schedStep] using h3
  | poll =>
    by_cases hin : s.inFlight = false
    · by_cases hstp : s.stopping = true
      · simp [schedStep, hin, hstp]
      · simp [schedStep, hin, hstp]
    · simpa [schedStep, hin] using h3

theorem step_quiescent (s : SchedState) (e : SchedEv)
    (h1 : s.stopping = true) (h2 : s.timerPending = false)
    (h3 : s.inFlight = false) :
    (schedStep s e).inFlight = false ∧
    (schedStep s e).appendLog = s.appendLog ∧
    (schedStep s e).lastError = s.lastError := by
  cases e with
  | timerFire => simp [schedStep, h2, h3]
  | finishCycle r => cases r <;> simp [schedStep, h3]
  | stopCall => simp [schedStep, h3]
  | poll => simp [schedStep, h1, h3]

theorem appendLog_step_mono (s : SchedState) (e : SchedEv) :
    ∃ l, (schedStep s e).appendLog = s.appendLog ++ l := by
  cases e with
  | timerFire =>
    simp only [schedStep]
    split
    · split
      · exact ⟨[], by simp⟩
      · exact ⟨[], by simp⟩
    · exact ⟨[], by simp⟩
  | finishCycle r =>
    cases r with
    | success entry =>
      simp only [schedStep]
      split
      · exact ⟨[entry], by simp⟩
      · exact ⟨[], by simp⟩
    | failure m =>
      simp only [schedStep]
      split
      · exact ⟨[], by simp⟩
      · exact ⟨[], by simp⟩
  | stopCall => exact ⟨[], by simp [schedStep]⟩
  | poll =>
    simp only [schedStep]
    split
    · exact ⟨[], by simp⟩
    · exact ⟨[], by simp⟩

theorem mem_appendLog_run (t : List SchedEv) (s : SchedState)
    (x : Storage.HistoryEntry) (h : x ∈ s.appendLog) :
    x ∈ (schedRun s t).appendLog := by
  induction t generalizing s with
  | nil => simpa [schedRun] using h
  | cons e t ih =>
    obtain ⟨l, hl⟩ := appendLog_step_mono s e
    exact ih (schedStep s e) (by rw [hl]; exact List.mem_append_left _ h)

theorem stop_run_inv (t : List SchedEv) (s : SchedState)
    (h1 : s.stopping = true) (h2 : s.timerPending = false)
    (h3 : s.stopResolved = true → s.inFlight = false) :
    (schedRun s t).stopping = true ∧
    (schedRun s t).timerPending = false ∧
    ((schedRun s t).stopResolved = true → (schedRun s t).inFlight = false) ∧
    (s.inFlight = false → (schedRun s t).inFlight = false ∧
      (schedRun s t).appendLog = s.appendLog ∧
      (schedRun s t).lastError = s.lastError) ∧
    (s.inFlight = true → s.stopResolved = false →
      (schedRun s t).stopResolved = true →
      ∃ r, SchedEv.finishCycle r ∈ t ∧
        (∀ entry, r = CycleResult.success entry →
          entry ∈ (schedRun s t).appendLog) ∧
        (∀ m, r = CycleResult.failure m →
          (schedRun s t).lastError = some m)) := by
  induction t generalizing s with
  | nil =>
    refine ⟨h1, h2, h3, fun hf => ⟨hf, rfl, rfl⟩, fun hif hres hres2 => ?_⟩
    simp [h3 hres2] at hif
  | cons e t ih =>
    obtain ⟨p1, p2⟩ := step_preserves_stopInv s e h1 h2
    have p3 := step_resolved_inv s e h3 h2
    have IH := ih (schedStep s e) p1 p2 p3
    simp only [schedRun]
    refine ⟨IH.1, IH.2.1, IH.2.2.1, ?_, ?_⟩
    · intro hf
      have q := step_quiescent s e h1 h2 hf
      have IH4 := IH.2.2.2.1 q.1
      exact ⟨IH4.1, by rw [IH4.2.1, q.2.1], by rw [IH4.2.2, q.2.2]⟩
    · intro hif hres hresT
      cases e with
      | finishCycle r =>
        refine ⟨r, List.mem_cons_self _ _, ?_, ?_⟩
        · intro entry her
          subst her
          have hstep : entry ∈ (schedStep s
              (SchedEv.finishCycle (CycleResult.success entry))).appendLog := by
            simp [schedStep, hif]
          exact mem_appendLog_run t _ entry hstep
        · intro m hm
          subst hm
          have hstep2 : (schedStep s
              (SchedEv.finishCycle (CycleResult.failure m))).inFlight
                = false := by
            simp [schedStep, hif]
          have hstepErr : (schedStep s
              (SchedEv.finishCycle (CycleResult.failure m))).lastError
                = some m := by
            simp [schedStep, hif]
          have IH4 := IH.2.2.2.1 hstep2
          rw [IH4.2.2, hstepErr]
      | timerFire =>
        have hid : schedStep s SchedEv.timerFire = s := by
          simp [schedStep, h2]
        rw [hid] at IH hresT ⊢
        obtain ⟨r, hr, h5, h6⟩ := IH.2.2.2.2 hif hres hresT
        exact ⟨r, List.mem_cons_of_mem _ hr, h5, h6⟩
      | stopCall =>
        have hif2 : (schedStep s SchedEv.stopCall).inFlight = true := by
          simp [schedStep, hif]
        have hres2 : (schedStep s SchedEv.stopCall).stopResolved = false := by
          simp [schedStep, hres]
        obtain ⟨r, hr, h5, h6⟩ := IH.2.2.2.2 hif2 hres2 hresT
        exact ⟨r, List.mem_cons_of_mem _ hr, h5, h6⟩
      | poll =>
        have hid : schedStep s SchedEv.poll = s := by
          simp [schedStep, hif]
        rw [hid] at IH hresT ⊢
        obtain ⟨r, hr, h5, h6⟩ := IH.2.2.2.2 hif hres hresT
        exact ⟨r, List.mem_cons_of_mem _ hr, h5, h6⟩

end Scheduler

namespace Scheduler

/-- C2 (counterexample): the claim as stated fails when the in-flight cycle
ends in a cycle-level exception.  Calling `stop()` with a cycle in flight and
letting that cycle finish with an error lets the stop promise resolve (after
one poll) even though nothing was ever appended to the history store — the
cycle completed, but its outcome was recorded in `lastError`, not appended. -/
theorem stop_error_cycle_counterexample :
    (schedStep ({ inFlight := true } : SchedState) SchedEv.stopCall).inFlight
        = true ∧
    (schedRun (schedStep ({ inFlight := true } : SchedState) SchedEv.stopCall)
        [SchedEv.finishCycle (CycleResult.failure "boom"),
         SchedEv.poll]).stopResolved = true ∧
    (schedRun (schedStep ({ inFlight := true } : SchedState) SchedEv.stopCall)
        [SchedEv.finishCycle (CycleResult.failure "boom"),
         SchedEv.poll]).appendLog = [] :=
  ⟨rfl, rfl, rfl⟩

/-- C2 (amended): calling `stop()` immediately cancels any pending timer and,
along every subsequent run of scheduler events, no timer is ever pending
again (so no new cycle is ever scheduled) and no cycle starts if none was in
flight; the promise returned by `stop()` resolves only when no cycle is in
flight; and if a cycle was in flight at the call, resolution implies that
cycle finished — never aborted — with a successful cycle's outcome appended
to the history store before resolution, while a cycle that failed with a
cycle-level exception leaves its message in `lastError` instead of appending. -/
theorem stop_waits_for_inflight (s : SchedState) (t : List SchedEv)
    (hres : s.stopResolved = false) :
    (schedStep s SchedEv.stopCall).stopping = true ∧
    (schedStep s SchedEv.stopCall).timerPending = false ∧
    (schedRun (schedStep s SchedEv.stopCall) t).timerPending = false ∧
    (s.inFlight = false →
      (schedRun (schedStep s SchedEv.stopCall) t).inFlight = false) ∧
    ((schedRun (schedStep s SchedEv.stopCall) t).stopResolved = true →
      (schedRun (schedStep s SchedEv.stopCall) t).inFlight = false) ∧
    (s.inFlight = true →
      (schedRun (schedStep s SchedEv.stopCall) t).stopResolved = true →
      ∃ r, SchedEv.finishCycle r ∈ t ∧
        (∀ entry, r = CycleResult.success entry →
          entry ∈ (schedRun (schedStep s SchedEv.stopCall) t).appendLog) ∧
        (∀ m, r = CycleResult.failure m →
          (schedRun (schedStep s SchedEv.stopCall) t).lastError = some m)) := by
  have hs1 : (schedStep s SchedEv.stopCall).stopping = true := by
    simp [schedStep]
  have hs2 : (schedStep s SchedEv.stopCall).timerPending = false := by
    simp [schedStep]
  have hs3 : (schedStep s SchedEv.stopCall).stopResolved = false := by
    simpa [schedStep] using hres
  have main := stop_run_inv t (schedStep s SchedEv.stopCall) hs1 hs2
    (by simp [hs3])
  refine ⟨hs1, hs2, main.2.1, fun hf => (main.2.2.2.1 ?_).1, main.2.2.1,
    fun hif => main.2.2.2.2 ?_ hs3⟩
  · simpa [schedStep] using hf
  · simpa [schedStep] using hif

/-- C2 (witness): `stop_waits_for_inflight` on a concrete state with a cycle
in flight, finishing successfully and then polling once. -/
theorem stop_waits_for_inflight_witness :
    (schedRun (schedStep ({ inFlight := true } : SchedState) SchedEv.stopCall)
      [SchedEv.finishCycle (CycleResult.success { timestamp := 5 }),
       SchedEv.poll]).timerPending = false :=
  (stop_waits_for_inflight { inFlight := true }
    [SchedEv.finishCycle (CycleResult.success { timestamp := 5 }),
     SchedEv.poll] rfl).2.2.1

/-- C3: when the in-flight cycle finishes, a cycle-level exception is caught
(the step function is total, so nothing propagates) and only sets `lastError`
to the error message, leaving `lastRun` and the append log unchanged; a
successful cycle appends its entry, sets `lastRun` to that entry's timestamp
and clears `lastError`; in both cases the cycle is no longer in flight and
the next cycle is scheduled exactly when `stopping` is not set. -/
theorem cycle_outcome_updates (s : SchedState) (entry : Storage.HistoryEntry)
    (m : String) (h : s.inFlight = true) :
    (schedStep s (SchedEv.finishCycle (CycleResult.failure m))).lastError
        = some m ∧
    (schedStep s (SchedEv.finishCycle (CycleResult.failure m))).lastRun
        = s.lastRun ∧
    (schedStep s (SchedEv.finishCycle (CycleResult.failure m))).appendLog
        = s.appendLog ∧
    (schedStep s (SchedEv.finishCycle (CycleResult.failure m))).inFlight
        = false ∧
    (s.stopping = false →
      (schedStep s
        (SchedEv.finishCycle (CycleResult.failure m))).timerPending = true) ∧
    (s.stopping = true →
      (schedStep s (SchedEv.finishCycle (CycleResult.failure m))).timerPending
        = s.timerPending) ∧
    (schedStep s (SchedEv.finishCycle (CycleResult.success entry))).lastRun
        = some entry.timestamp ∧
    (schedStep s (SchedEv.finishCycle (CycleResult.success entry))).lastError
        = none ∧
    (schedStep s (SchedEv.finishCycle (CycleResult.success entry))).appendLog
        = s.appendLog ++ [entry] ∧
    (schedStep s (SchedEv.finishCycle (CycleResult.success entry))).inFlight
        = false ∧
    (s.stopping = false →
      (schedStep s
        (SchedEv.finishCycle (CycleResult.success entry))).timerPending
          = true) ∧
    (s.stopping = true →
      (schedStep s
        (SchedEv.finishCycle (CycleResult.success entry))).timerPending
          = s.timerPending) := by
  refine ⟨?_, ?_, ?_, ?_, fun hns => ?_, fun hst => ?_, ?_, ?_, ?_, ?_,
    fun hns => ?_, fun hst => ?_⟩ <;> simp [schedStep, h, *]

/-- C3 (witness): `cycle_outcome_updates` on a concrete in-flight state. -/
theorem cycle_outcome_updates_witness :
    (schedStep ({ inFlight := true } : SchedState)
      (SchedEv.finishCycle (CycleResult.failure "kaput"))).lastError
        = some "kaput" :=
  (cycle_outcome_updates { inFlight := true } { timestamp := 3 } "kaput"
    rfl).1

end Scheduler
